import Mathlib

/-!
Shallow embedding of the BantuAfrica social-network application (`src/app.py`)
for checking its natural-language specification.

The relational database is modelled as lists of rows; each Flask request
handler becomes a pure function from a database state (plus the request's
inputs) to a new state and a response value.  External nondeterminism that
the handlers consume — `datetime.utcnow()` timestamps and the random hex of
`save_picture` — is passed in as explicit arguments.  The bcrypt password
hash is modelled as the identity on strings, since no claim concerns the
hashing scheme itself.  SQLite-level column constraints that the handlers
rely on (NOT NULL on `post.title` and `user.username`, the UNIQUE
constraints on `user.username`, `(user_id, post_id)` and
`(follower_id, followed_id)`) are modelled where a handler's commit can hit
them: a commit that would violate one raises `IntegrityError`, leaving the
database unchanged.
-/

namespace BantuAfrica

/-- A row of the `user` table (`class User`, app.py:41-72).
`username` and `email` are NOT NULL, so persisted rows carry plain strings;
`bio` and `location` columns are nullable. -/
structure User where
  id : Nat
  username : String
  email : String
  password : String
  profileImage : String
  bio : Option String
  location : Option String
  createdAt : Nat
deriving Repr, DecidableEq

/-- A row of the `post` table (`class Post`, app.py:74-90).
Both `title` and `content` are declared `nullable=False`; `image` is
nullable. -/
structure Post where
  id : Nat
  title : String
  content : String
  image : Option String
  createdAt : Nat
  userId : Nat
deriving Repr, DecidableEq

/-- A row of the `like` table (`class Like`, app.py:92-98). -/
structure Like where
  id : Nat
  userId : Nat
  postId : Nat
  createdAt : Nat
deriving Repr, DecidableEq

/-- A row of the `comment` table (`class Comment`, app.py:100-105). -/
structure Comment where
  id : Nat
  content : String
  createdAt : Nat
  userId : Nat
  postId : Nat
deriving Repr, DecidableEq

/-- A row of the `follow` table (`class Follow`, app.py:107-113). -/
structure Follow where
  id : Nat
  followerId : Nat
  followedId : Nat
  createdAt : Nat
deriving Repr, DecidableEq

/-- The database: one list of rows per table, plus each table's
autoincrement counter for fresh primary keys. -/
structure DB where
  users : List User
  posts : List Post
  likes : List Like
  comments : List Comment
  follows : List Follow
  nextUserId : Nat
  nextPostId : Nat
  nextLikeId : Nat
  nextCommentId : Nat
  nextFollowId : Nat
deriving Repr, DecidableEq

/-- `db.session.get(User, id)` / primary-key lookup. -/
def findUser (s : DB) (uid : Nat) : Option User :=
  s.users.find? (fun u => u.id == uid)

/-- `User.query.filter_by(username=...).first()`. -/
def findUserByName (s : DB) (name : String) : Option User :=
  s.users.find? (fun u => u.username == name)

/-- `Post.query.get(post_id)`. -/
def findPost (s : DB) (pid : Nat) : Option Post :=
  s.posts.find? (fun p => p.id == pid)

/-- The row predicate of
`Follow.query.filter_by(follower_id=a, followed_id=b)`. -/
def followMatch (a b : Nat) (f : Follow) : Bool :=
  f.followerId == a && f.followedId == b

/-- `User.is_following` (app.py:71-72): existence of a Follow edge from
`a` to `b`. -/
def isFollowing (s : DB) (a b : Nat) : Bool :=
  s.follows.any (followMatch a b)

/-- The row predicate of `Like.query.filter_by(user_id=uid, post_id=pid)`. -/
def likeMatch (uid pid : Nat) (l : Like) : Bool :=
  l.userId == uid && l.postId == pid

/-- Whether a Like row by `uid` on `pid` exists
(`Like.query.filter_by(user_id=..., post_id=...).first() is not None`). -/
def likedState (s : DB) (uid pid : Nat) : Bool :=
  s.likes.any (likeMatch uid pid)

/-- `Post.like_count` (app.py:86-87): number of Like rows on the post. -/
def postLikeCount (s : DB) (pid : Nat) : Nat :=
  (s.likes.filter (fun l => l.postId == pid)).length

/-- `Post.comment_count` (app.py:89-90). -/
def postCommentCount (s : DB) (pid : Nat) : Nat :=
  (s.comments.filter (fun c => c.postId == pid)).length

/-- `ALLOWED_EXTENSIONS` (app.py:25). -/
def ALLOWED_EXTENSIONS : List String := ["png", "jpg", "jpeg", "gif"]

/-- `allowed_file` (app.py:117-118): the filename contains a dot and the
part after the last dot, lower-cased, is an allowed extension. -/
def allowed_file (filename : String) : Bool :=
  filename.contains '.' &&
    ALLOWED_EXTENSIONS.contains ((filename.splitOn ".").getLastD "").toLower

/-- JSON body of the like-toggle response (app.py:323/328). -/
structure LikeResp where
  liked : Bool
  likeCount : Nat
deriving Repr, DecidableEq

/-- `db.session.delete(like)` (app.py:321): the Like row that
`filter_by(...).first()` returned — the first `(uid, pid)` match — is
removed. -/
def eraseLike (s : DB) (uid pid : Nat) : DB :=
  { s with likes := s.likes.eraseP (likeMatch uid pid) }

/-- `db.session.add(Like(user_id=uid, post_id=pid))` (app.py:325-326):
a fresh Like row is inserted. -/
def addLike (s : DB) (uid pid now : Nat) : DB :=
  { s with
      likes := s.likes ++ [⟨s.nextLikeId, uid, pid, now⟩],
      nextLikeId := s.nextLikeId + 1 }

/-- `like_post` (app.py:314-328): `POST /api/post/<id>/like`.
`none` models the 404 from `get_or_404`; otherwise the first Like row by
the current user on the post is deleted if one exists, else a fresh one is
inserted, and the response reports the liked flag together with
`post.like_count()` evaluated after the commit. -/
def like_post (s : DB) (uid pid now : Nat) : Option (DB × LikeResp) :=
  match findPost s pid with
  | none => none
  | some _ =>
    if likedState s uid pid then
      let s' := eraseLike s uid pid
      some (s', ⟨false, postLikeCount s' pid⟩)
    else
      let s' := addLike s uid pid now
      some (s', ⟨true, postLikeCount s' pid⟩)

/-- Outcome of `register` (app.py:157-190). `dbError` covers the commits
that the column constraints reject (a missing form field inserted as NULL
into a NOT NULL column, or `bcrypt.generate_password_hash(None)` raising
before the insert). -/
inductive RegisterResult where
  | passwordMismatch
  | usernameTaken
  | emailTaken
  | dbError
  | created
deriving Repr, DecidableEq

/-- `register` (app.py:157-190): `POST /register`.  Form fields arrive via
`request.form.get`, hence `Option String` (`none` = field absent).  The
checks run in source order: password/confirm mismatch, duplicate username,
duplicate email; then the new user row is committed.  The bcrypt hash is
modelled as the identity on the password string. -/
def register (s : DB) (username email password confirm : Option String)
    (now : Nat) : DB × RegisterResult :=
  if password ≠ confirm then
    (s, .passwordMismatch)
  else if (s.users.any (fun u => some u.username == username)) then
    (s, .usernameTaken)
  else if (s.users.any (fun u => some u.email == email)) then
    (s, .emailTaken)
  else
    match username, email, password with
    | some un, some em, some pw =>
      ({ s with
          users := s.users ++
            [⟨s.nextUserId, un, em, pw, "default.jpg", some "", none, now⟩],
          nextUserId := s.nextUserId + 1 }, .created)
    | _, _, _ => (s, .dbError)

/-- Outcome of `update_profile` (app.py:247-266). -/
inductive UpdateProfileResult where
  | updated
  | dbError
deriving Repr, DecidableEq

/-- `update_profile` (app.py:247-266): `POST /profile/update`.  The handler
assigns `request.form.get('username'/'bio'/'location')` to the current
user's columns with no validation, optionally replaces the profile image
(`pictureFn` stands for the random filename `save_picture` generates), and
commits.  The commit hits `IntegrityError` when the new username is NULL
(absent field, NOT NULL column) or collides with a different user's
username (UNIQUE column); the transaction then persists nothing. -/
def update_profile (s : DB) (uid : Nat)
    (username bio location : Option String)
    (imageFile : Option String) (pictureFn : String) :
    DB × UpdateProfileResult :=
  match username with
  | none => (s, .dbError)
  | some un =>
    if s.users.any (fun u => u.id != uid && u.username == un) then
      (s, .dbError)
    else
      ({ s with
          users := s.users.map (fun u =>
            if u.id == uid then
              { u with
                  username := un, bio := bio, location := location,
                  profileImage :=
                    match imageFile with
                    | some f =>
                        if allowed_file f then pictureFn else u.profileImage
                    | none => u.profileImage }
            else u) }, .updated)

/-- Outcome of `new_post` (app.py:268-293). -/
inductive NewPostResult where
  | emptyContent
  | dbError
  | created (pid : Nat)
deriving Repr, DecidableEq

/-- `new_post` (app.py:268-293): `POST /post/new`.  Rejects falsy content
(`if not content`: absent field or empty string) with no state change.
Otherwise a Post row is committed; `post.title` is NOT NULL, so an absent
title field (`request.form.get('title')` = None) makes the commit raise
`IntegrityError` and persists nothing.  `imageFile` is the uploaded file's
client filename (`none` when no usable file), `pictureFn` the random
filename `save_picture` stores it under. -/
def new_post (s : DB) (uid : Nat) (title content : Option String)
    (imageFile : Option String) (pictureFn : String) (now : Nat) :
    DB × NewPostResult :=
  if content.getD "" = "" then
    (s, .emptyContent)
  else
    match title, content with
    | some t, some c =>
      let img : Option String :=
        match imageFile with
        | some f => if allowed_file f then some pictureFn else none
        | none => none
      ({ s with
          posts := s.posts ++ [⟨s.nextPostId, t, c, img, now, uid⟩],
          nextPostId := s.nextPostId + 1 }, .created s.nextPostId)
    | _, _ => (s, .dbError)

/-- Outcome of `delete_post` (app.py:301-312). -/
inductive DeletePostResult where
  | notFound
  | forbidden
  | deleted
deriving Repr, DecidableEq

/-- `delete_post` (app.py:301-312): `GET /post/<id>/delete`.  404 when the
post does not exist; rejected with no state change when the requester is
not the author; otherwise the post row is deleted, which cascades to its
Like and Comment rows (`cascade="all, delete-orphan"`, app.py:83-84). -/
def delete_post (s : DB) (uid pid : Nat) : DB × DeletePostResult :=
  match findPost s pid with
  | none => (s, .notFound)
  | some p =>
    if p.userId != uid then
      (s, .forbidden)
    else
      ({ s with
          posts := s.posts.filter (fun q => q.id != pid),
          likes := s.likes.filter (fun l => l.postId != pid),
          comments := s.comments.filter (fun c => c.postId != pid) },
        .deleted)

/-- Outcome of `add_comment` (app.py:330-353). -/
inductive AddCommentResult where
  | notFound
  | emptyContent
  | created (commentCount : Nat)
deriving Repr, DecidableEq

/-- `add_comment` (app.py:330-353): `POST /api/post/<id>/comment`.  404 for
a missing post, 400 for falsy content, otherwise a Comment row is committed
and the response carries `post.comment_count()` after the commit. -/
def add_comment (s : DB) (uid pid : Nat) (content : Option String)
    (now : Nat) : DB × AddCommentResult :=
  match findPost s pid with
  | none => (s, .notFound)
  | some _ =>
    if content.getD "" = "" then
      (s, .emptyContent)
    else
      let s' := { s with
        comments :=
          s.comments ++ [⟨s.nextCommentId, content.getD "", now, uid, pid⟩],
        nextCommentId := s.nextCommentId + 1 }
      (s', .created (postCommentCount s' pid))

/-- Outcome of `follow_user` (app.py:355-372): which flash message the
redirect carries. -/
inductive FollowResult where
  | notFound
  | selfFollow
  | alreadyFollowing
  | followed
deriving Repr, DecidableEq

/-- `follow_user` (app.py:355-372): `GET /follow/<username>`.  404 for an
unknown username; rejected (danger flash) when the target is the current
user; a no-op with an info flash when already following; otherwise one
Follow edge is inserted. -/
def follow_user (s : DB) (uid : Nat) (username : String) (now : Nat) :
    DB × FollowResult :=
  match findUserByName s username with
  | none => (s, .notFound)
  | some target =>
    if target.id == uid then
      (s, .selfFollow)
    else if isFollowing s uid target.id then
      (s, .alreadyFollowing)
    else
      ({ s with
          follows :=
            s.follows ++ [⟨s.nextFollowId, uid, target.id, now⟩],
          nextFollowId := s.nextFollowId + 1 }, .followed)

/-- Outcome of `unfollow_user` (app.py:374-385). -/
inductive UnfollowResult where
  | notFound
  | unfollowed
  | noop
deriving Repr, DecidableEq

/-- `unfollow_user` (app.py:374-385): `GET /unfollow/<username>`.  404 for
an unknown username; deletes the first matching Follow edge if present,
silently does nothing otherwise. -/
def unfollow_user (s : DB) (uid : Nat) (username : String) :
    DB × UnfollowResult :=
  match findUserByName s username with
  | none => (s, .notFound)
  | some target =>
    if isFollowing s uid target.id then
      ({ s with
          follows := s.follows.eraseP (followMatch uid target.id) },
        .unfollowed)
    else
      (s, .noop)

/-- The ids of the users the current user follows
(`[f.followed_id for f in current_user.following]`, app.py:144/408). -/
def followingIds (s : DB) (uid : Nat) : List Nat :=
  (s.follows.filter (fun f => f.followerId == uid)).map (fun f => f.followedId)

/-- The feed query shared by `home` (app.py:144-146) and `api_feed`
(app.py:408-413): posts whose author is a followed user or the current
user (`Post.user_id.in_(post_ids)`), ordered by `created_at`
descending. -/
def feedPosts (s : DB) (uid : Nat) : List Post :=
  let postIds := followingIds s uid ++ [uid]
  List.insertionSort (fun a b => b.createdAt ≤ a.createdAt)
    (s.posts.filter (fun p => postIds.contains p.userId))

/-- `PER_PAGE` of `api_feed` (app.py:406). -/
def perPage : Nat := 10

/-- Flask-SQLAlchemy pagination metadata used by `api_feed`
(app.py:432-438). -/
structure FeedResp where
  posts : List Post
  hasNext : Bool
  hasPrev : Bool
  page : Nat
  pages : Nat
deriving Repr, DecidableEq

/-- `api_feed` (app.py:402-438): `GET /api/feed?page=p`.  `paginate` with
the default `error_out=True` aborts 404 (`none` here) when the requested
page is below 1 or beyond the data; otherwise the page slice is returned
with `page`, `pages = ceil(total/per_page)`, `has_next = page < pages` and
`has_prev = page > 1`.  The per-post JSON serialisation keeps the row's
fields, so the items are modelled as the Post rows themselves. -/
def api_feed (s : DB) (uid : Nat) (page : Nat) : Option FeedResp :=
  let all := feedPosts s uid
  if page < 1 then none
  else
    let items := (all.drop ((page - 1) * perPage)).take perPage
    if items.isEmpty && page != 1 then none
    else
      let pages := (all.length + perPage - 1) / perPage
      some ⟨items, decide (page < pages), decide (1 < page), page, pages⟩

/-- `initialize_database` (app.py:442-457): fresh tables holding the one
seeded `admin` user. -/
def initDB : DB :=
  { users := [⟨1, "admin", "admin@bantu.africa", "admin123", "default.jpg",
      some "", none, 0⟩],
    posts := [], likes := [], comments := [], follows := [],
    nextUserId := 2, nextPostId := 1, nextLikeId := 1,
    nextCommentId := 1, nextFollowId := 1 }

/-- One state-mutating request, with the identity of the authenticated
requester and the request's inputs.  (Read-only routes — home, profiles,
search, the feed — never write and need no constructor here.) -/
inductive Op where
  | register (username email password confirm : Option String) (now : Nat)
  | updateProfile (uid : Nat) (username bio location : Option String)
      (imageFile : Option String) (pictureFn : String)
  | newPost (uid : Nat) (title content imageFile : Option String)
      (pictureFn : String) (now : Nat)
  | deletePost (uid pid : Nat)
  | likePost (uid pid now : Nat)
  | addComment (uid pid : Nat) (content : Option String) (now : Nat)
  | follow (uid : Nat) (username : String) (now : Nat)
  | unfollow (uid : Nat) (username : String)
deriving Repr

/-- The state after handling one request (responses discarded). -/
def applyOp (s : DB) : Op → DB
  | .register un em pw cp now => (register s un em pw cp now).1
  | .updateProfile uid un b l f pfn => (update_profile s uid un b l f pfn).1
  | .newPost uid t c f pfn now => (new_post s uid t c f pfn now).1
  | .deletePost uid pid => (delete_post s uid pid).1
  | .likePost uid pid now =>
      match like_post s uid pid now with
      | some (s', _) => s'
      | none => s
  | .addComment uid pid c now => (add_comment s uid pid c now).1
  | .follow uid un now => (follow_user s uid un now).1
  | .unfollow uid un => (unfollow_user s uid un).1

/-- The states the application can reach: the initial database followed by
any sequence of requests. -/
inductive Reachable : DB → Prop where
  | init : Reachable initDB
  | step {s : DB} (o : Op) : Reachable s → Reachable (applyOp s o)

/-- No user has two Like rows on the same post: the `(user_id, post_id)`
pairs of the `like` table are pairwise distinct (the `unique_like`
constraint, app.py:98). -/
def likesUnique (s : DB) : Prop :=
  s.likes.Pairwise (fun a b => ¬(a.userId = b.userId ∧ a.postId = b.postId))

/-- No user has two Follow edges to the same target: the
`(follower_id, followed_id)` pairs of the `follow` table are pairwise
distinct (the `unique_follow` constraint, app.py:113). -/
def followsUnique (s : DB) : Prop :=
  s.follows.Pairwise
    (fun a b => ¬(a.followerId = b.followerId ∧ a.followedId = b.followedId))

/-! ### Concrete states for witnesses and counterexamples -/

/-- A small concrete database: `alice` (id 1) owns post 1, and `bob`
(id 2) follows `alice`. -/
def exDB : DB :=
  { users :=
      [⟨1, "alice", "a@x.com", "pw1", "default.jpg", some "", none, 1⟩,
       ⟨2, "bob", "b@x.com", "pw2", "default.jpg", some "", none, 2⟩],
    posts := [⟨1, "hello", "world", none, 4, 1⟩],
    likes := [], comments := [],
    follows := [⟨1, 2, 1, 3⟩],
    nextUserId := 3, nextPostId := 2, nextLikeId := 1,
    nextCommentId := 1, nextFollowId := 2 }

/-- `exDB` after `bob` likes post 1. -/
def exDBLiked : DB :=
  { exDB with likes := [⟨1, 2, 1, 5⟩], nextLikeId := 2 }

/-! ### Theorems -/

/-- **C6.** Creating a post with empty (`""`) or missing content is always
rejected (`if not content`, app.py:275) and the database state is
unchanged: no Post row is persisted. -/
theorem new_post_rejects_empty_content (s : DB) (uid : Nat)
    (title content imageFile : Option String) (pictureFn : String)
    (now : Nat) (h : content = none ∨ content = some "") :
    new_post s uid title content imageFile pictureFn now =
      (s, .emptyContent) := by
  rcases h with h | h <;> subst h <;> simp [new_post]

/-- Witness for `new_post_rejects_empty_content` at a concrete input. -/
theorem new_post_rejects_empty_content_witness :
    new_post exDB 2 (some "t") (some "") none "" 9 =
      (exDB, .emptyContent) :=
  new_post_rejects_empty_content exDB 2 (some "t") (some "") none "" 9
    (Or.inr rfl)

/-- **C7.** Only the owning user may delete a post: for an existing post,
a requester other than the author is rejected with the database state
fully unchanged (so the post row is still present and unmodified), while
the author's request deletes the post (no post with that id remains). -/
theorem delete_post_owner_only (s : DB) (uid pid : Nat) (p : Post)
    (hp : findPost s pid = some p) :
    (p.userId ≠ uid → delete_post s uid pid = (s, .forbidden)) ∧
    (p.userId = uid →
      (delete_post s uid pid).2 = .deleted ∧
      ∀ q ∈ (delete_post s uid pid).1.posts, q.id ≠ pid) := by
  constructor
  · intro hne
    simp [delete_post, hp, hne]
  · intro heq
    refine ⟨by simp [delete_post, hp, heq], ?_⟩
    intro q hq
    simp only [delete_post, hp, heq, bne_self_eq_false, Bool.false_eq_true,
      if_false] at hq
    simpa using (List.mem_filter.mp hq).2

/-- Witness for `delete_post_owner_only`: post 1 of `exDB` exists and is
owned by user 1; user 2's delete is rejected unchanged, user 1's delete
removes it. -/
theorem delete_post_owner_only_witness :
    ((1 : Nat) ≠ 2 → delete_post exDB 2 1 = (exDB, .forbidden)) ∧
    ((1 : Nat) = 1 →
      (delete_post exDB 1 1).2 = .deleted ∧
      ∀ q ∈ (delete_post exDB 1 1).1.posts, q.id ≠ 1) :=
  ⟨fun h => (delete_post_owner_only exDB 2 1 ⟨1, "hello", "world", none, 4, 1⟩
      (by decide)).1 h,
   fun h => (delete_post_owner_only exDB 1 1 ⟨1, "hello", "world", none, 4, 1⟩
      (by decide)).2 h⟩

/-- **C8.** Following a target user that exists: rejected with the state
unchanged when the target is the requester; a no-op with an informational
notice when already following; otherwise exactly one new Follow edge from
the requester to the target is appended. -/
theorem follow_user_cases (s : DB) (uid : Nat) (username : String)
    (now : Nat) (t : User) (ht : findUserByName s username = some t) :
    (t.id = uid → follow_user s uid username now = (s, .selfFollow)) ∧
    (t.id ≠ uid → isFollowing s uid t.id = true →
      follow_user s uid username now = (s, .alreadyFollowing)) ∧
    (t.id ≠ uid → isFollowing s uid t.id = false →
      (follow_user s uid username now).2 = .followed ∧
      (follow_user s uid username now).1.follows =
        s.follows ++ [⟨s.nextFollowId, uid, t.id, now⟩]) := by
  refine ⟨?_, ?_, ?_⟩
  · intro hself
    simp [follow_user, ht, hself]
  · intro hne hf
    simp [follow_user, ht, hne, hf]
  · intro hne hf
    constructor <;> simp [follow_user, ht, hne, hf]

/-- Witness for `follow_user_cases`: in `exDB`, `alice` (id 1) resolves by
name; all three hypotheses are dischargeable for suitable requesters. -/
theorem follow_user_cases_witness :
    follow_user exDB 1 "alice" 9 = (exDB, .selfFollow) ∧
    follow_user exDB 2 "alice" 9 = (exDB, .alreadyFollowing) := by
  have h1 := (follow_user_cases exDB 1 "alice" 9
    ⟨1, "alice", "a@x.com", "pw1", "default.jpg", some "", none, 1⟩
    (by decide)).1 rfl
  have h2 := ((follow_user_cases exDB 2 "alice" 9
    ⟨1, "alice", "a@x.com", "pw1", "default.jpg", some "", none, 1⟩
    (by decide)).2.1) (by decide) (by decide)
  exact ⟨h1, h2⟩

/-- **C9 counterexample.** With non-empty content but the title field
absent from the form (`request.form.get('title')` is None), the commit
violates the NOT NULL constraint on `post.title` (app.py:76) and raises
`IntegrityError`: the request does not succeed and no Post row is
persisted, contradicting the claim that a post with no title supplied is
created. -/
theorem new_post_absent_title_fails :
    new_post exDB 1 none (some "hello") none "" 9 = (exDB, .dbError) := by
  decide

/-- **C9 amended.** The handler itself requires only non-empty content
(the title is never validated): a post with non-empty content and the
title field supplied — even as the empty string — succeeds and persists
exactly the submitted title and content; but when the title field is
wholly absent the NOT NULL column constraint fails the commit and nothing
is persisted. -/
theorem new_post_title_optional (s : DB) (uid : Nat) (t c : String)
    (imageFile : Option String) (pictureFn : String) (now : Nat)
    (hc : c ≠ "") :
    (new_post s uid (some t) (some c) imageFile pictureFn now).2 =
        .created s.nextPostId ∧
    (new_post s uid (some t) (some c) imageFile pictureFn now).1.posts =
      s.posts ++ [⟨s.nextPostId, t, c,
        (match imageFile with
         | some f => if allowed_file f then some pictureFn else none
         | none => none), now, uid⟩] ∧
    new_post s uid none (some c) imageFile pictureFn now = (s, .dbError) := by
  refine ⟨?_, ?_, ?_⟩ <;> simp [new_post, hc]

/-- Witness for `new_post_title_optional`: an empty title with content
`"hi"` creates the post in `exDB`. -/
theorem new_post_title_optional_witness :
    (new_post exDB 1 (some "") (some "hi") none "" 9).2 = .created 2 ∧
    (new_post exDB 1 (some "") (some "hi") none "" 9).1.posts =
      exDB.posts ++ [⟨2, "", "hi", none, 9, 1⟩] ∧
    new_post exDB 1 none (some "hi") none "" 9 = (exDB, .dbError) :=
  new_post_title_optional exDB 1 "" "hi" none "" 9 (by decide)

/-- **C4 counterexample.** In `exDB`, `bob` (id 2) already follows
`alice`: the follow request is then an informational no-op, and the
subsequent unfollow removes the pre-existing edge, so the follow-graph
does not return to its prior state. -/
theorem follow_unfollow_breaks_when_already_following :
    (unfollow_user (follow_user exDB 2 "alice" 9).1 2 "alice").1.follows ≠
      exDB.follows := by
  decide

/-- **C4 amended.** Provided the requester does not already follow the
target (the ordinary case; the not-found and self-follow cases make both
requests no-ops), following a user and then unfollowing them returns the
follow table to exactly its prior contents. -/
theorem follow_then_unfollow_restores (s : DB) (uid : Nat)
    (username : String) (now : Nat)
    (h : ∀ t, findUserByName s username = some t →
      isFollowing s uid t.id = false) :
    (unfollow_user (follow_user s uid username now).1 uid username).1.follows
      = s.follows := by
  cases ht : findUserByName s username with
  | none => simp [follow_user, unfollow_user, ht]
  | some t =>
    have hnf := h t ht
    by_cases hself : t.id = uid
    · rw [hself] at hnf
      simp [follow_user, unfollow_user, ht, hself, hnf]
    · have hclean : ∀ f ∈ s.follows, ¬ followMatch uid t.id f = true :=
        List.any_eq_false.mp hnf
      have hmatch : followMatch uid t.id ⟨s.nextFollowId, uid, t.id, now⟩
          = true := by simp [followMatch]
      have hfollow :
          follow_user s uid username now =
            ({ s with
                follows := s.follows ++ [⟨s.nextFollowId, uid, t.id, now⟩],
                nextFollowId := s.nextFollowId + 1 }, .followed) := by
        simp [follow_user, ht, hself, hnf]
      rw [hfollow]
      have hfby :
          findUserByName
            { s with
                follows := s.follows ++ [⟨s.nextFollowId, uid, t.id, now⟩],
                nextFollowId := s.nextFollowId + 1 } username = some t := ht
      have hfollowing :
          isFollowing
            { s with
                follows := s.follows ++ [⟨s.nextFollowId, uid, t.id, now⟩],
                nextFollowId := s.nextFollowId + 1 } uid t.id = true := by
        simp [isFollowing, List.any_append, hmatch]
      simp only [unfollow_user, hfby, hfollowing, if_true]
      rw [List.eraseP_append_right _ hclean,
        List.eraseP_cons_of_pos hmatch]
      simp

/-- Witness for `follow_then_unfollow_restores`: `alice` (id 1) follows
nobody in `exDB`, so her follow/unfollow round trip on `bob` restores the
follow table. -/
theorem follow_then_unfollow_restores_witness :
    (unfollow_user (follow_user exDB 1 "bob" 9).1 1 "bob").1.follows =
      exDB.follows :=
  follow_then_unfollow_restores exDB 1 "bob" 9 (by decide)

/-- `Post.like_count` as a `countP`. -/
theorem postLikeCount_eq_countP (s : DB) (pid : Nat) :
    postLikeCount s pid = s.likes.countP (fun l => l.postId == pid) := by
  rw [postLikeCount, List.countP_eq_length_filter]

@[simp] theorem eraseLike_likes (s : DB) (uid pid : Nat) :
    (eraseLike s uid pid).likes = s.likes.eraseP (likeMatch uid pid) := rfl

@[simp] theorem addLike_likes (s : DB) (uid pid now : Nat) :
    (addLike s uid pid now).likes =
      s.likes ++ [⟨s.nextLikeId, uid, pid, now⟩] := rfl

/-- A `(uid, pid)` Like match is in particular a `pid` match. -/
theorem likeMatch_postId {uid pid : Nat} {l : Like}
    (h : likeMatch uid pid l = true) : (l.postId == pid) = true := by
  simp only [likeMatch, Bool.and_eq_true] at h
  exact h.2

/-- When at most one Like row matches `(uid, pid)` and one does, erasing
the first match leaves no match and lowers the post's like count by
exactly one. -/
theorem eraseP_like_unique (uid pid : Nat) (likes : List Like)
    (huniq : likes.countP (likeMatch uid pid) ≤ 1)
    (hliked : likes.any (likeMatch uid pid) = true) :
    (likes.eraseP (likeMatch uid pid)).any (likeMatch uid pid) = false ∧
    (likes.eraseP (likeMatch uid pid)).countP (fun l => l.postId == pid) + 1
      = likes.countP (fun l => l.postId == pid) := by
  obtain ⟨a, ha, hpa⟩ := List.any_eq_true.mp hliked
  obtain ⟨a', l₁, l₂, hl₁, hpa', heq, herase⟩ := List.exists_of_eraseP ha hpa
  subst heq
  rw [herase]
  have hc₁ : l₁.countP (likeMatch uid pid) = 0 := List.countP_eq_zero.mpr hl₁
  rw [List.countP_append, List.countP_cons, hc₁, if_pos hpa'] at huniq
  have hc₂ : l₂.countP (likeMatch uid pid) = 0 := by omega
  have hl₂ : ∀ b ∈ l₂, ¬ likeMatch uid pid b = true :=
    List.countP_eq_zero.mp hc₂
  constructor
  · rw [List.any_eq_false]
    intro x hx
    rcases List.mem_append.mp hx with hx | hx
    · exact hl₁ x hx
    · exact hl₂ x hx
  · rw [List.countP_append, List.countP_append, List.countP_cons,
      if_pos (likeMatch_postId hpa')]
    omega

/-- **C1.** For an existing post (and the at-most-one-like-per-pair state
guaranteed by the `unique_like` constraint), the like toggle removes the
requester's Like when one exists and creates one otherwise: the response's
`liked` flag is true iff a Like row by the requester on the post exists
after the operation, `liked` is the negation of the prior liked-state, the
reported `like_count` is the post's like count after the operation, and
that count goes down by one on an unlike and up by one on a like. -/
theorem like_post_toggle_spec (s : DB) (uid pid now : Nat) (s' : DB)
    (r : LikeResp)
    (huniq : s.likes.countP (likeMatch uid pid) ≤ 1)
    (h : like_post s uid pid now = some (s', r)) :
    r.liked = likedState s' uid pid ∧
    r.liked = !likedState s uid pid ∧
    r.likeCount = postLikeCount s' pid ∧
    (likedState s uid pid = true →
      postLikeCount s' pid + 1 = postLikeCount s pid) ∧
    (likedState s uid pid = false →
      postLikeCount s' pid = postLikeCount s pid + 1) := by
  unfold like_post at h
  cases hp : findPost s pid with
  | none => rw [hp] at h; exact absurd h (by simp)
  | some p =>
    rw [hp] at h
    by_cases hl : likedState s uid pid
    · rw [if_pos hl] at h
      obtain ⟨hs', hr⟩ := Prod.mk.injEq .. ▸ Option.some.inj h
      subst hs' hr
      obtain ⟨hany, hcount⟩ :=
        eraseP_like_unique uid pid s.likes huniq hl
      refine ⟨?_, ?_, rfl, ?_, ?_⟩
      · simpa [likedState] using hany.symm
      · simp [hl]
      · intro _
        rw [postLikeCount_eq_countP, postLikeCount_eq_countP]
        exact hcount
      · intro hfalse
        rw [hl] at hfalse
        exact absurd hfalse (by simp)
    · rw [if_neg hl] at h
      replace hl : likedState s uid pid = false := by
        simpa using hl
      obtain ⟨hs', hr⟩ := Prod.mk.injEq .. ▸ Option.some.inj h
      subst hs' hr
      have hmatch : likeMatch uid pid ⟨s.nextLikeId, uid, pid, now⟩ = true := by
        simp [likeMatch]
      refine ⟨?_, ?_, rfl, ?_, ?_⟩
      · simp [likedState, List.any_append, hmatch]
      · simp [hl]
      · intro htrue
        rw [hl] at htrue
        exact absurd htrue (by simp)
      · intro _
        rw [postLikeCount_eq_countP, postLikeCount_eq_countP]
        simp [List.countP_append, List.countP_cons,
          likeMatch_postId hmatch]

/-- Witness for `like_post_toggle_spec`: `bob` likes post 1 in `exDB`,
producing `exDBLiked` and the response `{liked: true, like_count: 1}`. -/
theorem like_post_toggle_spec_witness :
    (true = likedState exDBLiked 2 1) ∧
    (true = !likedState exDB 2 1) ∧
    ((1 : Nat) = postLikeCount exDBLiked 1) ∧
    (likedState exDB 2 1 = true →
      postLikeCount exDBLiked 1 + 1 = postLikeCount exDB 1) ∧
    (likedState exDB 2 1 = false →
      postLikeCount exDBLiked 1 = postLikeCount exDB 1 + 1) :=
  like_post_toggle_spec exDB 2 1 5 exDBLiked ⟨true, 1⟩ (by decide) (by decide)

/-- **C3.** For an existing post (in a state respecting the `unique_like`
constraint), toggling the like twice in succession returns the database to
the original liked-state and the original like count. -/
theorem like_toggle_twice_restores (s : DB) (uid pid now₁ now₂ : Nat)
    (p : Post) (hp : findPost s pid = some p)
    (huniq : s.likes.countP (likeMatch uid pid) ≤ 1) :
    ∃ s₁ r₁ s₂ r₂,
      like_post s uid pid now₁ = some (s₁, r₁) ∧
      like_post s₁ uid pid now₂ = some (s₂, r₂) ∧
      likedState s₂ uid pid = likedState s uid pid ∧
      postLikeCount s₂ pid = postLikeCount s pid := by
  by_cases hl : likedState s uid pid
  · -- unlike, then like again
    obtain ⟨hany, hcount⟩ := eraseP_like_unique uid pid s.likes huniq hl
    have hp₁ : findPost (eraseLike s uid pid) pid = some p := hp
    have hl₁ : likedState (eraseLike s uid pid) uid pid = false := hany
    refine ⟨eraseLike s uid pid,
      ⟨false, postLikeCount (eraseLike s uid pid) pid⟩,
      addLike (eraseLike s uid pid) uid pid now₂,
      ⟨true, postLikeCount (addLike (eraseLike s uid pid) uid pid now₂) pid⟩,
      ?_, ?_, ?_, ?_⟩
    · unfold like_post
      rw [hp, if_pos hl]
    · unfold like_post
      rw [hp₁, hl₁, if_neg (by simp)]
    · rw [hl]
      simp [likedState, likeMatch]
    · rw [postLikeCount_eq_countP, postLikeCount_eq_countP]
      simp only [addLike_likes, eraseLike_likes, List.countP_append,
        List.countP_cons, List.countP_nil]
      simp only [show ((⟨(eraseLike s uid pid).nextLikeId, uid, pid, now₂⟩ :
        Like).postId == pid) = true from by simp, if_true]
      omega
  · -- like, then unlike
    replace hl : likedState s uid pid = false := by simpa using hl
    have hclean : ∀ b ∈ s.likes, ¬ likeMatch uid pid b = true :=
      List.any_eq_false.mp hl
    have hmatch :
        likeMatch uid pid ⟨s.nextLikeId, uid, pid, now₁⟩ = true := by
      simp [likeMatch]
    have herase :
        (s.likes ++ [(⟨s.nextLikeId, uid, pid, now₁⟩ : Like)]).eraseP
            (likeMatch uid pid) = s.likes := by
      rw [List.eraseP_append_right _ hclean,
        List.eraseP_cons_of_pos hmatch]
      simp
    have hp₁ : findPost (addLike s uid pid now₁) pid = some p := hp
    have hl₁ : likedState (addLike s uid pid now₁) uid pid = true := by
      simp [likedState, List.any_append, hmatch]
    refine ⟨addLike s uid pid now₁,
      ⟨true, postLikeCount (addLike s uid pid now₁) pid⟩,
      eraseLike (addLike s uid pid now₁) uid pid,
      ⟨false, postLikeCount (eraseLike (addLike s uid pid now₁) uid pid) pid⟩,
      ?_, ?_, ?_, ?_⟩
    · unfold like_post
      rw [hp, hl, if_neg (by simp)]
    · unfold like_post
      rw [hp₁, hl₁, if_pos rfl]
    · rw [hl]
      simp only [likedState, eraseLike_likes, addLike_likes, herase]
      exact hl
    · simp only [postLikeCount, eraseLike_likes, addLike_likes, herase]

/-- Witness for `like_toggle_twice_restores`: post 1 exists in `exDB` and
`bob` has no like there yet. -/
theorem like_toggle_twice_restores_witness :
    ∃ s₁ r₁ s₂ r₂,
      like_post exDB 2 1 5 = some (s₁, r₁) ∧
      like_post s₁ 2 1 6 = some (s₂, r₂) ∧
      likedState s₂ 2 1 = likedState exDB 2 1 ∧
      postLikeCount s₂ 1 = postLikeCount exDB 1 :=
  like_toggle_twice_restores exDB 2 1 5 6 ⟨1, "hello", "world", none, 4, 1⟩
    (by decide) (by decide)

/-- Appending a Like row whose `(user, post)` pair matches no existing row
preserves pairwise distinctness of the pairs. -/
theorem likesPairwise_append (likes : List Like) (e : Like)
    (hU : likes.Pairwise
      (fun a b => ¬(a.userId = b.userId ∧ a.postId = b.postId)))
    (hclean : ∀ a ∈ likes, ¬ likeMatch e.userId e.postId a = true) :
    (likes ++ [e]).Pairwise
      (fun a b => ¬(a.userId = b.userId ∧ a.postId = b.postId)) := by
  rw [List.pairwise_append]
  refine ⟨hU, List.pairwise_singleton .., ?_⟩
  intro a ha b hb
  simp only [List.mem_singleton] at hb
  subst hb
  rintro ⟨h1, h2⟩
  exact hclean a ha (by simp [likeMatch, h1, h2])

/-- Appending a Follow edge whose `(follower, followed)` pair matches no
existing edge preserves pairwise distinctness of the pairs. -/
theorem followsPairwise_append (follows : List Follow) (e : Follow)
    (hU : follows.Pairwise
      (fun a b => ¬(a.followerId = b.followerId ∧ a.followedId = b.followedId)))
    (hclean : ∀ a ∈ follows, ¬ followMatch e.followerId e.followedId a = true) :
    (follows ++ [e]).Pairwise
      (fun a b =>
        ¬(a.followerId = b.followerId ∧ a.followedId = b.followedId)) := by
  rw [List.pairwise_append]
  refine ⟨hU, List.pairwise_singleton .., ?_⟩
  intro a ha b hb
  simp only [List.mem_singleton] at hb
  subst hb
  rintro ⟨h1, h2⟩
  exact hclean a ha (by simp [followMatch, h1, h2])

/-- Every request handler preserves `(user, post)`-uniqueness of the
`like` table: `like_post` inserts only after `filter_by(...).first()`
found nothing, and `delete_post` only removes rows. -/
theorem likesUnique_applyOp (s : DB) (o : Op) (hL : likesUnique s) :
    likesUnique (applyOp s o) := by
  cases o with
  | register un em pw cp now =>
    show likesUnique (register s un em pw cp now).1
    unfold register
    repeat' split
    all_goals exact hL
  | updateProfile uid un b l f pfn =>
    show likesUnique (update_profile s uid un b l f pfn).1
    unfold update_profile
    repeat' split
    all_goals exact hL
  | newPost uid t c f pfn now =>
    show likesUnique (new_post s uid t c f pfn now).1
    unfold new_post
    repeat' split
    all_goals exact hL
  | deletePost uid pid =>
    show likesUnique (delete_post s uid pid).1
    unfold delete_post
    repeat' split
    all_goals
      first
      | exact hL
      | exact List.Pairwise.sublist (List.filter_sublist _) hL
  | likePost uid pid now =>
    show likesUnique (match like_post s uid pid now with
      | some (s', _) => s'
      | none => s)
    cases hfp : findPost s pid with
    | none =>
      rw [show like_post s uid pid now = none from by
        unfold like_post; rw [hfp]]
      exact hL
    | some p =>
      by_cases hl : likedState s uid pid
      · rw [show like_post s uid pid now =
            some (eraseLike s uid pid,
              ⟨false, postLikeCount (eraseLike s uid pid) pid⟩) from by
          unfold like_post; rw [hfp, if_pos hl]]
        exact List.Pairwise.sublist (List.eraseP_sublist _) hL
      · replace hl : likedState s uid pid = false := by simpa using hl
        rw [show like_post s uid pid now =
            some (addLike s uid pid now,
              ⟨true, postLikeCount (addLike s uid pid now) pid⟩) from by
          unfold like_post; rw [hfp, hl, if_neg (by simp)]]
        exact likesPairwise_append s.likes _ hL
          (fun a ha => List.any_eq_false.mp hl a ha)
  | addComment uid pid c now =>
    show likesUnique (add_comment s uid pid c now).1
    unfold add_comment
    repeat' split
    all_goals exact hL
  | follow uid un now =>
    show likesUnique (follow_user s uid un now).1
    unfold follow_user
    repeat' split
    all_goals exact hL
  | unfollow uid un =>
    show likesUnique (unfollow_user s uid un).1
    unfold unfollow_user
    repeat' split
    all_goals exact hL

/-- Every request handler preserves `(follower, followed)`-uniqueness of
the `follow` table: `follow_user` inserts only after `is_following` was
false, and `unfollow_user` only removes edges. -/
theorem followsUnique_applyOp (s : DB) (o : Op) (hF : followsUnique s) :
    followsUnique (applyOp s o) := by
  cases o with
  | register un em pw cp now =>
    show followsUnique (register s un em pw cp now).1
    unfold register
    repeat' split
    all_goals exact hF
  | updateProfile uid un b l f pfn =>
    show followsUnique (update_profile s uid un b l f pfn).1
    unfold update_profile
    repeat' split
    all_goals exact hF
  | newPost uid t c f pfn now =>
    show followsUnique (new_post s uid t c f pfn now).1
    unfold new_post
    repeat' split
    all_goals exact hF
  | deletePost uid pid =>
    show followsUnique (delete_post s uid pid).1
    unfold delete_post
    repeat' split
    all_goals exact hF
  | likePost uid pid now =>
    show followsUnique (match like_post s uid pid now with
      | some (s', _) => s'
      | none => s)
    cases hfp : findPost s pid with
    | none =>
      rw [show like_post s uid pid now = none from by
        unfold like_post; rw [hfp]]
      exact hF
    | some p =>
      by_cases hl : likedState s uid pid
      · rw [show like_post s uid pid now =
            some (eraseLike s uid pid,
              ⟨false, postLikeCount (eraseLike s uid pid) pid⟩) from by
          unfold like_post; rw [hfp, if_pos hl]]
        exact hF
      · replace hl : likedState s uid pid = false := by simpa using hl
        rw [show like_post s uid pid now =
            some (addLike s uid pid now,
              ⟨true, postLikeCount (addLike s uid pid now) pid⟩) from by
          unfold like_post; rw [hfp, hl, if_neg (by simp)]]
        exact hF
  | addComment uid pid c now =>
    show followsUnique (add_comment s uid pid c now).1
    unfold add_comment
    repeat' split
    all_goals exact hF
  | follow uid un now =>
    show followsUnique (follow_user s uid un now).1
    cases hu : findUserByName s un with
    | none =>
      unfold follow_user
      rw [hu]
      exact hF
    | some t =>
      by_cases hself : t.id = uid
      · have heq : follow_user s uid un now = (s, .selfFollow) := by
          simp [follow_user, hu, hself]
        rw [heq]
        exact hF
      · by_cases hif : isFollowing s uid t.id
        · have heq : follow_user s uid un now = (s, .alreadyFollowing) := by
            simp [follow_user, hu, hself, hif]
          rw [heq]
          exact hF
        · replace hif : isFollowing s uid t.id = false := by simpa using hif
          have heq : (follow_user s uid un now).1.follows =
              s.follows ++ [⟨s.nextFollowId, uid, t.id, now⟩] := by
            simp [follow_user, hu, hself, hif]
          show followsUnique (follow_user s uid un now).1
          unfold followsUnique
          rw [heq]
          exact followsPairwise_append s.follows _ hF
            (fun a ha => List.any_eq_false.mp hif a ha)
  | unfollow uid un =>
    show followsUnique (unfollow_user s uid un).1
    unfold unfollow_user
    repeat' split
    all_goals
      first
      | exact hF
      | exact List.Pairwise.sublist (List.eraseP_sublist _) hF

/-- **C5.** In every state reachable from the initial database by any
sequence of the application's operations, no user has two Follow edges to
the same target and no user has two Like rows on the same post: the
`(user_id, post_id)` pairs of the `like` table and the
`(follower_id, followed_id)` pairs of the `follow` table are unique. -/
theorem reachable_states_unique (s : DB) (h : Reachable s) :
    likesUnique s ∧ followsUnique s := by
  induction h with
  | init =>
    exact ⟨List.Pairwise.nil, List.Pairwise.nil⟩
  | step o _ ih =>
    exact ⟨likesUnique_applyOp _ o ih.1, followsUnique_applyOp _ o ih.2⟩

/-- Witness for `reachable_states_unique` at the initial database. -/
theorem reachable_states_unique_witness :
    likesUnique initDB ∧ followsUnique initDB :=
  reachable_states_unique initDB Reachable.init

/-- A user id is in `followingIds` exactly when a Follow edge from the
current user to it exists. -/
theorem mem_followingIds (s : DB) (uid x : Nat) :
    x ∈ followingIds s uid ↔ isFollowing s uid x = true := by
  simp only [followingIds, isFollowing, List.mem_map, List.mem_filter,
    List.any_eq_true, followMatch, Bool.and_eq_true, beq_iff_eq]
  constructor
  · rintro ⟨f, ⟨hf, h1⟩, h2⟩
    exact ⟨f, hf, h1, h2⟩
  · rintro ⟨f, hf, h1, h2⟩
    exact ⟨f, ⟨hf, h1⟩, h2⟩

/-- **C2.** For an authenticated user, a successful `/api/feed` response:
the feed query returns exactly the posts whose owner is the current user
or a followed user, in non-increasing creation-time order; the response's
items are the fixed-size page slice of that list (at most `perPage` of
them), `page` echoes the requested page, `pages` is the total page count
(the least `n` with `total ≤ n * perPage`, i.e. the ceiling), `has_next`
is true iff posts remain beyond this page, and `has_prev` is true iff the
page number exceeds 1. -/
theorem api_feed_spec (s : DB) (uid page : Nat) (r : FeedResp)
    (h : api_feed s uid page = some r) :
    (∀ p : Post, p ∈ feedPosts s uid ↔
      (p ∈ s.posts ∧ (p.userId = uid ∨ isFollowing s uid p.userId = true))) ∧
    (feedPosts s uid).Pairwise (fun a b => b.createdAt ≤ a.createdAt) ∧
    r.posts = ((feedPosts s uid).drop ((page - 1) * perPage)).take perPage ∧
    r.posts.length ≤ perPage ∧
    r.page = page ∧
    ((feedPosts s uid).length ≤ r.pages * perPage ∧
      r.pages * perPage < (feedPosts s uid).length + perPage) ∧
    (r.hasNext = true ↔ page * perPage < (feedPosts s uid).length) ∧
    (r.hasPrev = true ↔ 1 < page) := by
  unfold api_feed at h
  by_cases h1 : page < 1
  · rw [if_pos h1] at h
    cases h
  · rw [if_neg h1] at h
    by_cases h2 :
        (((feedPosts s uid).drop ((page - 1) * perPage)).take
          perPage).isEmpty && page != 1
    · rw [if_pos h2] at h
      cases h
    · rw [if_neg h2] at h
      have hr := (Option.some.inj h).symm
      subst hr
      refine ⟨?_, ?_, rfl, List.length_take_le .., rfl, ?_, ?_, by simp⟩
      · intro p
        unfold feedPosts
        rw [List.mem_insertionSort, List.mem_filter]
        simp only [List.elem_iff, List.mem_append, List.mem_singleton,
          mem_followingIds, List.contains]
        constructor
        · rintro ⟨hp, hin | hin⟩
          · exact ⟨hp, Or.inr hin⟩
          · exact ⟨hp, Or.inl hin⟩
        · rintro ⟨hp, hin | hin⟩
          · exact ⟨hp, Or.inr hin⟩
          · exact ⟨hp, Or.inl hin⟩
      · unfold feedPosts
        haveI : IsTotal Post (fun a b => b.createdAt ≤ a.createdAt) :=
          ⟨fun a b => le_total b.createdAt a.createdAt⟩
        haveI : IsTrans Post (fun a b => b.createdAt ≤ a.createdAt) :=
          ⟨fun a b c h1 h2 => le_trans h2 h1⟩
        exact List.sorted_insertionSort _ _
      · show (feedPosts s uid).length ≤
            ((feedPosts s uid).length + perPage - 1) / perPage * perPage ∧
          ((feedPosts s uid).length + perPage - 1) / perPage * perPage <
            (feedPosts s uid).length + perPage
        unfold perPage
        omega
      · show decide (page <
            ((feedPosts s uid).length + perPage - 1) / perPage) = true ↔
          page * perPage < (feedPosts s uid).length
        rw [decide_eq_true_iff]
        unfold perPage
        omega

/-- Witness for `api_feed_spec`: page 1 of `bob`'s feed in `exDB` holds
exactly `alice`'s post. -/
theorem api_feed_spec_witness :
    (∀ p : Post, p ∈ feedPosts exDB 2 ↔
      (p ∈ exDB.posts ∧
        (p.userId = 2 ∨ isFollowing exDB 2 p.userId = true))) ∧
    (feedPosts exDB 2).Pairwise (fun a b => b.createdAt ≤ a.createdAt) ∧
    (⟨[⟨1, "hello", "world", none, 4, 1⟩], false, false, 1, 1⟩ :
        FeedResp).posts =
      ((feedPosts exDB 2).drop ((1 - 1) * perPage)).take perPage ∧
    (⟨[⟨1, "hello", "world", none, 4, 1⟩], false, false, 1, 1⟩ :
        FeedResp).posts.length ≤ perPage ∧
    (⟨[⟨1, "hello", "world", none, 4, 1⟩], false, false, 1, 1⟩ :
        FeedResp).page = 1 ∧
    ((feedPosts exDB 2).length ≤
        (⟨[⟨1, "hello", "world", none, 4, 1⟩], false, false, 1, 1⟩ :
          FeedResp).pages * perPage ∧
      (⟨[⟨1, "hello", "world", none, 4, 1⟩], false, false, 1, 1⟩ :
          FeedResp).pages * perPage < (feedPosts exDB 2).length + perPage) ∧
    ((⟨[⟨1, "hello", "world", none, 4, 1⟩], false, false, 1, 1⟩ :
        FeedResp).hasNext = true ↔ 1 * perPage < (feedPosts exDB 2).length) ∧
    ((⟨[⟨1, "hello", "world", none, 4, 1⟩], false, false, 1, 1⟩ :
        FeedResp).hasPrev = true ↔ 1 < 1) :=
  api_feed_spec exDB 2 1 ⟨[⟨1, "hello", "world", none, 4, 1⟩],
    false, false, 1, 1⟩ (by decide)

/-- **C10 counterexample.** With the username field absent from the form
(`request.form.get('username')` is None), the commit violates the NOT
NULL constraint on `user.username` and raises `IntegrityError`: nothing —
neither username, bio, nor location — is overwritten, contradicting the
claim that the submitted values are persisted unconditionally, absent
values included. -/
theorem update_profile_absent_username_fails :
    update_profile exDB 1 none (some "new bio") (some "Nairobi") none "" =
      (exDB, .dbError) := by
  decide

/-- **C10 amended.** The handler performs no application-level check on
the submitted values: whenever the new username does not collide with a
different user's username, it persists exactly the submitted username
(empty string included), bio, and location — there is no non-emptiness or
distinctness validation, unlike registration, which rejects a duplicate
username.  But the commit is subject to the database constraints: an
absent username (NULL in a NOT NULL column) fails with `IntegrityError`
and changes nothing, as does a username equal to a different user's
(UNIQUE column). -/
theorem update_profile_no_app_validation (s : DB) (uid : Nat) (u : String)
    (bio loc : Option String) (imageFile : Option String) (pictureFn : String)
    (hfree : ∀ v ∈ s.users, v.id ≠ uid → v.username ≠ u) :
    update_profile s uid (some u) bio loc imageFile pictureFn =
      ({ s with
          users := s.users.map (fun v =>
            if v.id == uid then
              { v with
                  username := u, bio := bio, location := loc,
                  profileImage :=
                    match imageFile with
                    | some f =>
                        if allowed_file f then pictureFn else v.profileImage
                    | none => v.profileImage }
            else v) }, .updated) ∧
    update_profile s uid none bio loc imageFile pictureFn = (s, .dbError) ∧
    (∀ u', (∃ v ∈ s.users, v.id ≠ uid ∧ v.username = u') →
      update_profile s uid (some u') bio loc imageFile pictureFn =
        (s, .dbError)) ∧
    (∀ em pw, (∃ v ∈ s.users, v.username = u) →
      register s (some u) em (some pw) (some pw) 0 = (s, .usernameTaken)) := by
  have hany : s.users.any (fun v => v.id != uid && v.username == u)
      = false := by
    rw [List.any_eq_false]
    intro v hv
    simp only [Bool.and_eq_true, bne_iff_ne, beq_iff_eq, not_and]
    exact hfree v hv
  refine ⟨?_, rfl, ?_, ?_⟩
  · simp [update_profile, hany]
  · rintro u' ⟨v, hv, hne, hvu⟩
    have hany' : s.users.any (fun w => w.id != uid && w.username == u')
        = true :=
      List.any_eq_true.mpr ⟨v, hv, by simp [hne, hvu]⟩
    simp [update_profile, hany']
  · rintro em pw ⟨v, hv, hvu⟩
    have hex : ∃ x ∈ s.users, x.username = u := ⟨v, hv, hvu⟩
    simp [register, hex]

/-- Witness for `update_profile_no_app_validation`: in `exDB`, the
username `"alice"` collides with no user other than `alice` (id 1)
herself, a username colliding with a different user (such as `"bob"`,
id 2) makes the commit fail unchanged, and registration of a second
`"alice"` is rejected. -/
theorem update_profile_no_app_validation_witness :
    update_profile exDB 1 (some "alice") (some "b") none none "" =
      ({ exDB with
          users := exDB.users.map (fun v =>
            if v.id == 1 then
              { v with
                  username := "alice", bio := some "b", location := none,
                  profileImage :=
                    match (none : Option String) with
                    | some f =>
                        if allowed_file f then "" else v.profileImage
                    | none => v.profileImage }
            else v) }, .updated) ∧
    update_profile exDB 1 none (some "b") none none "" = (exDB, .dbError) ∧
    (∀ u', (∃ v ∈ exDB.users, v.id ≠ 1 ∧ v.username = u') →
      update_profile exDB 1 (some u') (some "b") none none "" =
        (exDB, .dbError)) ∧
    (∀ em pw, (∃ v ∈ exDB.users, v.username = "alice") →
      register exDB (some "alice") em (some pw) (some pw) 0 =
        (exDB, .usernameTaken)) :=
  update_profile_no_app_validation exDB 1 "alice" (some "b") none none ""
    (by decide)

end BantuAfrica
